import Mathlib

/-!
Verification development for the FundingCall_UK normalization-and-deduplication
pipeline (scrapers/utils.py, scrapers/academies_scraper.py,
scrapers/foundations_scraper.py, scrapers/update_all.py).

The Python code is shallowly embedded: dictionaries whose keys may be absent
become structures with `Option` fields, Python exceptions become `Except`
values, the wall clock becomes an explicit `now : String` parameter, and the
file system becomes an explicit disk-state value threaded through the
persistence functions.  Python integers are `Int`; a JSON value that may be
either a number or a string (such as a funding amount) is a `PyVal`.
-/

namespace FundingCallUK

/-- A loosely-typed JSON scalar as it appears in a funding record: either a
Python integer or a Python string.  Arithmetic on a `PyVal.str` raises
`TypeError` in Python, which the embedding models as an `Except.error`. -/
inductive PyVal where
  | int (n : Int)
  | str (s : String)
  deriving DecidableEq, Repr

/-- The `funding['funding_details']['amount']` sub-dictionary, restricted to the
keys the verified code reads (`min` and `max`). -/
structure Amount where
  min : PyVal
  max : PyVal
  deriving DecidableEq, Repr

/-- The `funding['funding_details']` sub-dictionary: the validator only tests
whether the `amount` key is present, so that key is an `Option`. -/
structure FundingDetails where
  amount : Option Amount
  deriving DecidableEq, Repr

/-- The `funding['application']` sub-dictionary: the validator only tests
whether the `deadline` key is present. -/
structure Application where
  deadline : Option String
  deriving DecidableEq, Repr

/-- The `funding['eligibility']` sub-dictionary, restricted to the key the
summary reporter reads. -/
structure Eligibility where
  career_stage : String
  deriving DecidableEq, Repr

/-- A funding record as handled by `validate_funding_data` and
`update_database` in scrapers/utils.py.  Each top-level required field is an
`Option` mirroring presence or absence of the dictionary key; nested values
beyond those the verified functions touch are omitted. -/
structure Funding where
  id : Option String
  title : Option String
  organization : Option String
  category : Option String
  description : Option String
  eligibility : Option Eligibility
  funding_details : Option FundingDetails
  application : Option Application
  deriving DecidableEq, Repr

/-- The aggregate store (`funding_database.json`) with the top-level shape
`update_database` reads and writes. -/
structure Database where
  last_updated : String
  total_fundings : Nat
  fundings : List Funding
  deriving DecidableEq, Repr

/-- Embedding of `validate_funding_data` (scrapers/utils.py lines 221-242):
all eight required top-level fields must be present, `funding_details` must
contain an `amount` key and `application` must contain a `deadline` key.  The
Python function returns early with `False` at the first missing field and
never reaches a nested access unless the enclosing field is present, so the
short-circuiting conjunction below is observationally identical. -/
def validate_funding_data (f : Funding) : Bool :=
  f.id.isSome && f.title.isSome && f.organization.isSome && f.category.isSome &&
  f.description.isSome && f.eligibility.isSome && f.funding_details.isSome &&
  f.application.isSome &&
  (match f.funding_details with
   | none => false
   | some fd => fd.amount.isSome) &&
  (match f.application with
   | none => false
   | some a => a.deadline.isSome)

/-- The `funding['id']` access performed by `update_database` after
`validate_funding_data` has succeeded; validation guarantees the key is
present, so the default is never produced on any path the merge reaches. -/
def idD (f : Funding) : String :=
  f.id.getD ""

/-- Embedding of the set comprehension
`{f['id'] for f in database.get('fundings', [])}`: reading `f['id']` from an
existing record that lacks the key raises `KeyError`, which the enclosing
`try` of `update_database` turns into a `False` return (modelled as
`Except.error`). -/
def idsOf : List Funding → Except Unit (List String)
  | [] => Except.ok []
  | f :: fs =>
    match f.id with
    | none => Except.error ()
    | some i => (idsOf fs).map (fun l => i :: l)

/-- Embedding of the merge loop of `update_database` (scrapers/utils.py lines
260-264): a record is appended exactly when it validates and its id is not in
the id set built from the pre-merge store.  The Python loop never inserts the
ids of appended records into `existing_ids`, and neither does this function. -/
def filterNewFundings (ids : List String) : List Funding → List Funding
  | [] => []
  | f :: fs =>
    if validate_funding_data f && !(ids.contains (idD f)) then
      f :: filterNewFundings ids fs
    else
      filterNewFundings ids fs

/-- The default store `update_database` builds when `load_json` produced a
falsy value (missing file, corrupt JSON, or empty document). -/
def emptyDatabase (now : String) : Database :=
  { last_updated := now, total_fundings := 0, fundings := [] }

/-- The store the merge starts from: the loaded one, or the default. -/
def startDb (now : String) (loaded : Option Database) : Database :=
  loaded.getD (emptyDatabase now)

/-- Embedding of `update_database` (scrapers/utils.py lines 244-278) up to but
not including persistence: load (or default) the store, build the existing-id
set, append the valid non-duplicate new records in input order, then overwrite
`last_updated` with the current time and `total_fundings` with the new length.
`Except.error` is the path on which the Python code catches an exception and
returns `False` without writing. -/
def update_database (now : String) (loaded : Option Database)
    (new_fundings : List Funding) : Except Unit Database :=
  match idsOf (startDb now loaded).fundings with
  | Except.error e => Except.error e
  | Except.ok existing_ids =>
    Except.ok
      { last_updated := now,
        total_fundings :=
          ((startDb now loaded).fundings ++
            filterNewFundings existing_ids new_fundings).length,
        fundings :=
          (startDb now loaded).fundings ++
            filterNewFundings existing_ids new_fundings }

/-- A minimal record passing `validate_funding_data`, with the given id. -/
def sampleValid (i : String) : Funding :=
  { id := some i, title := some "t", organization := some "o",
    category := some "c", description := some "d",
    eligibility := some { career_stage := "All Stages" },
    funding_details := some { amount := some { min := PyVal.int 0, max := PyVal.int 0 } },
    application := some { deadline := some "2024-12-31" } }

/-- A record failing `validate_funding_data` because `description` is absent. -/
def sampleMissingDescription (i : String) : Funding :=
  { sampleValid i with description := none }

/-! ## Identifier generation: UTF-8, MD5 and the slug

`FundingScraper.generate_id` (scrapers/utils.py lines 181-191) builds a slug
from `f"{organization}_{title}"` and appends `hashlib.md5(combined.encode())`.
The MD5 algorithm is embedded concretely over `Nat` with explicit `% 2^32`
truncation, and `str.encode()` as UTF-8 byte production. -/

/-- Addition of two 32-bit words with wrap-around. -/
def add32 (a b : Nat) : Nat := (a + b) % 4294967296

/-- Bitwise complement of a 32-bit word. -/
def not32 (a : Nat) : Nat := 4294967295 - (a % 4294967296)

/-- Left rotation of a 32-bit word by `s` places (for `0 < s < 32` and inputs
below `2^32`, the two summands occupy disjoint bit ranges). -/
def rotl32 (x s : Nat) : Nat :=
  ((x <<< s) % 4294967296) + ((x % 4294967296) >>> (32 - s))

/-- The 64 MD5 additive constants `floor(abs(sin(i+1)) * 2^32)`. -/
def md5K : List Nat :=
  [3614090360, 3905402710, 606105819, 3250441966, 4118548399, 1200080426, 2821735955, 4249261313,
   1770035416, 2336552879, 4294925233, 2304563134, 1804603682, 4254626195, 2792965006, 1236535329,
   4129170786, 3225465664, 643717713, 3921069994, 3593408605, 38016083, 3634488961, 3889429448,
   568446438, 3275163606, 4107603335, 1163531501, 2850285829, 4243563512, 1735328473, 2368359562,
   4294588738, 2272392833, 1839030562, 4259657740, 2763975236, 1272893353, 4139469664, 3200236656,
   681279174, 3936430074, 3572445317, 76029189, 3654602809, 3873151461, 530742520, 3299628645,
   4096336452, 1126891415, 2878612391, 4237533241, 1700485571, 2399980690, 4293915773, 2240044497,
   1873313359, 4264355552, 2734768916, 1309151649, 4149444226, 3174756917, 718787259, 3951481745]

/-- The MD5 per-round left-rotation amounts. -/
def md5S : List Nat :=
  [7, 12, 17, 22, 7, 12, 17, 22, 7, 12, 17, 22, 7, 12, 17, 22,
   5, 9, 14, 20, 5, 9, 14, 20, 5, 9, 14, 20, 5, 9, 14, 20,
   4, 11, 16, 23, 4, 11, 16, 23, 4, 11, 16, 23, 4, 11, 16, 23,
   6, 10, 15, 21, 6, 10, 15, 21, 6, 10, 15, 21, 6, 10, 15, 21]

/-- The MD5 message-word index for round `i`. -/
def md5G (i : Nat) : Nat :=
  if i < 16 then i
  else if i < 32 then (5 * i + 1) % 16
  else if i < 48 then (3 * i + 5) % 16
  else (7 * i) % 16

/-- The MD5 round function applied to the working words `b`, `c`, `d`. -/
def md5F (i b c d : Nat) : Nat :=
  if i < 16 then Nat.lor (Nat.land b c) (Nat.land (not32 b) d)
  else if i < 32 then Nat.lor (Nat.land d b) (Nat.land (not32 d) c)
  else if i < 48 then Nat.xor (Nat.xor b c) d
  else Nat.xor c (Nat.lor b (not32 d))

/-- One MD5 round over the working state `(a, b, c, d)`. -/
def md5Step (M : List Nat) (st : Nat × Nat × Nat × Nat) (i : Nat) :
    Nat × Nat × Nat × Nat :=
  let a := st.1
  let b := st.2.1
  let c := st.2.2.1
  let d := st.2.2.2
  let tmp := add32 (add32 (add32 a (md5F i b c d)) (md5K.getD i 0)) (M.getD (md5G i) 0)
  (d, add32 b (rotl32 tmp (md5S.getD i 0)), b, c)

/-- The MD5 compression function: 64 rounds, then addition of the incoming
state. -/
def md5Compress (st : Nat × Nat × Nat × Nat) (M : List Nat) :
    Nat × Nat × Nat × Nat :=
  let r := (List.range 64).foldl (md5Step M) st
  (add32 st.1 r.1, add32 st.2.1 r.2.1, add32 st.2.2.1 r.2.2.1, add32 st.2.2.2 r.2.2.2)

/-- Little-endian decoding of a byte list into 32-bit words. -/
def toWordsLE : List Nat → List Nat
  | b0 :: b1 :: b2 :: b3 :: rest =>
    (b0 + 256 * b1 + 65536 * b2 + 16777216 * b3) :: toWordsLE rest
  | _ => []

/-- Splits a byte list into 64-byte blocks; the fuel argument (any bound on
the number of blocks, here the list length) keeps the recursion structural so
that the kernel can evaluate it. -/
def chunks64Fuel : Nat → List Nat → List (List Nat)
  | 0, _ => []
  | _ + 1, [] => []
  | n + 1, x :: xs => ((x :: xs).take 64) :: chunks64Fuel n ((x :: xs).drop 64)

/-- Splits a byte list into 64-byte blocks. -/
def chunks64 (l : List Nat) : List (List Nat) :=
  chunks64Fuel l.length l

/-- The eight-byte little-endian encoding of the 64-bit message bit length. -/
def lenBytesLE (n : Nat) : List Nat :=
  (List.range 8).map (fun i => (n >>> (8 * i)) % 256)

/-- MD5 padding: a `0x80` byte, zeros up to 56 mod 64, then the bit length. -/
def md5Pad (msg : List Nat) : List Nat :=
  msg ++ [128] ++ List.replicate ((119 - (msg.length % 64)) % 64) 0 ++
    lenBytesLE ((msg.length * 8) % 18446744073709551616)

/-- Little-endian byte decomposition of a 32-bit word. -/
def wordBytesLE (w : Nat) : List Nat :=
  [w % 256, (w >>> 8) % 256, (w >>> 16) % 256, (w >>> 24) % 256]

/-- The 16-byte MD5 digest of a byte sequence. -/
def md5Bytes (msg : List Nat) : List Nat :=
  let st := (chunks64 (md5Pad msg)).foldl
    (fun st chunk => md5Compress st (toWordsLE chunk))
    (1732584193, 4023233417, 2562383102, 271733878)
  wordBytesLE st.1 ++ wordBytesLE st.2.1 ++ wordBytesLE st.2.2.1 ++ wordBytesLE st.2.2.2

/-- A lowercase hexadecimal digit. -/
def hexDigit (n : Nat) : Char :=
  if n < 10 then Char.ofNat (48 + n) else Char.ofNat (87 + n)

/-- Two lowercase hex digits for one byte. -/
def byteHex (b : Nat) : List Char :=
  [hexDigit (b / 16), hexDigit (b % 16)]

/-- The lowercase hexadecimal MD5 digest, as `hashlib.md5(...).hexdigest()`. -/
def md5Hex (msg : List Nat) : String :=
  String.mk ((md5Bytes msg).foldr (fun b acc => byteHex b ++ acc) [])

/-- UTF-8 encoding of one character, as `str.encode()` produces. -/
def utf8Bytes (c : Char) : List Nat :=
  let n := c.toNat
  if n < 128 then [n]
  else if n < 2048 then [192 + n / 64, 128 + n % 64]
  else if n < 65536 then [224 + n / 4096, 128 + (n / 64) % 64, 128 + n % 64]
  else [240 + n / 262144, 128 + (n / 4096) % 64, 128 + (n / 64) % 64, 128 + n % 64]

/-- UTF-8 encoding of a string. -/
def strBytes (s : String) : List Nat :=
  s.data.foldr (fun c acc => utf8Bytes c ++ acc) []

/-- True on the characters the regex class `[a-zA-Z0-9]` accepts. -/
def isAsciiAlnum (c : Char) : Bool :=
  ('a' ≤ c && c ≤ 'z') || ('A' ≤ c && c ≤ 'Z') || ('0' ≤ c && c ≤ '9')

/-- Embedding of `re.sub(pattern+, '_', text)` for a single-character class:
each maximal run of characters failing `p` becomes one underscore.  The flag
records whether the previous character was part of such a run. -/
def replRunsAux (p : Char → Bool) (inRun : Bool) : List Char → List Char
  | [] => []
  | c :: cs =>
    if p c then c :: replRunsAux p false cs
    else if inRun then replRunsAux p true cs
    else '_' :: replRunsAux p true cs

/-- Run substitution starting outside a run. -/
def replRuns (p : Char → Bool) (l : List Char) : List Char :=
  replRunsAux p false l

/-- Embedding of `str.strip('_')`. -/
def stripSep (l : List Char) : List Char :=
  ((l.dropWhile (fun c => c == '_')).reverse.dropWhile (fun c => c == '_')).reverse

/-- The ASCII fragment of Python `str.lower()`: `'A'..'Z'` map to
`'a'..'z'` and every other character is unchanged (non-ASCII case mappings
never survive the slug's `[^a-zA-Z0-9]` filter, so they are out of scope). -/
def pyLowerChar (c : Char) : Char :=
  if 65 ≤ c.toNat ∧ c.toNat ≤ 90 then Char.ofNat (c.toNat + 32) else c

/-- An ASCII upper-case letter, stated on code points. -/
def isUpperAscii (c : Char) : Prop :=
  65 ≤ c.toNat ∧ c.toNat ≤ 90

/-- Two adjacent slug characters are not both separators. -/
def noAdjSep (a b : Char) : Prop :=
  ¬(a = '_' ∧ b = '_')

/-- The slug of `generate_id`: lower-case the combined string, replace each
run of non-alphanumeric characters by one underscore, collapse underscore
runs, and strip leading and trailing underscores (scrapers/utils.py lines
184-186). -/
def slugOf (combined : List Char) : List Char :=
  stripSep (replRuns (fun c => !(c == '_')) (replRuns isAsciiAlnum (combined.map pyLowerChar)))

/-- The string `f"{organization}_{title}"` hashed and slugged by
`generate_id`. -/
def combinedOf (title organization : String) : String :=
  organization ++ "_" ++ title

/-- Embedding of `FundingScraper.generate_id` (scrapers/utils.py lines
181-191): the slug of the combined string followed by an underscore and the
MD5 hex digest of the combined string's UTF-8 bytes. -/
def generate_id (title organization : String) : String :=
  String.mk (slugOf (combinedOf title organization).data) ++ "_" ++
    md5Hex (strBytes (combinedOf title organization))

/-! ## Dates and the record builder

`calculate_next_deadline`, `determine_priority_level`,
`determine_competition_level`, `estimate_success_rate`,
`get_standard_requirements`, `get_funding_covers` and
`create_funding_object` from scrapers/academies_scraper.py and
scrapers/foundations_scraper.py.  `datetime.strptime(deadline, '%Y-%m-%d')`
accepts exactly four year digits and one or two month/day digits and
validates the calendar; a failed parse raises `ValueError`, modelled as
`Except.error`. -/

/-- Python substring test `needle in hay` on character lists. -/
def listContainsSub (needle : List Char) : List Char → Bool
  | [] => needle.isEmpty
  | c :: cs => needle.isPrefixOf (c :: cs) || listContainsSub needle cs

/-- Python substring test `needle in hay` (case-sensitive). -/
def strContainsSub (hay needle : String) : Bool :=
  listContainsSub needle.data hay.data

/-- Decimal digits to a number. -/
def digitsToNat (l : List Char) : Nat :=
  l.foldl (fun acc c => 10 * acc + (c.toNat - 48)) 0

/-- Gregorian leap year, as Python's `calendar`/`datetime`. -/
def isLeap (y : Nat) : Bool :=
  (y % 4 == 0 && y % 100 != 0) || y % 400 == 0

/-- Days in a month of a given year. -/
def daysInMonth (y m : Nat) : Nat :=
  if m == 2 then (if isLeap y then 29 else 28)
  else if m == 4 || m == 6 || m == 9 || m == 11 then 30
  else 31

/-- Splitting a character list at every `'-'`, as `'-'.join`-style field
separation for the `%Y-%m-%d` pattern. -/
def splitOnDash : List Char → List (List Char)
  | [] => [[]]
  | c :: cs =>
    if c == '-' then [] :: splitOnDash cs
    else
      match splitOnDash cs with
      | [] => [[c]]
      | p :: ps => (c :: p) :: ps

/-- Embedding of `datetime.strptime(s, '%Y-%m-%d')`: exactly four year
digits, one or two month and day digits, month in 1..12, day within the
month, year at least 1 (and at most 9999, enforced by the four digits). -/
def parseDate (s : String) : Option (Nat × Nat × Nat) :=
  match splitOnDash s.data with
  | [ys, ms, ds] =>
    if ys.length == 4 && ys.all Char.isDigit &&
       (ms.length == 1 || ms.length == 2) && ms.all Char.isDigit &&
       (ds.length == 1 || ds.length == 2) && ds.all Char.isDigit then
      let y := digitsToNat ys
      let m := digitsToNat ms
      let d := digitsToNat ds
      if 1 ≤ y && 1 ≤ m && m ≤ 12 && 1 ≤ d && d ≤ daysInMonth y m then
        some (y, m, d)
      else none
    else none
  | _ => none

/-- Days since 0000-03-01 of a proleptic-Gregorian civil date (the standard
days-from-civil algorithm, nonnegative for every year from 1 on). -/
def toDayNumber (y m d : Nat) : Nat :=
  let yShift := y - (if m ≤ 2 then 1 else 0)
  let era := yShift / 400
  let yoe := yShift % 400
  let mp := if 2 < m then m - 3 else m + 9
  let doy := (153 * mp + 2) / 5 + d - 1
  let doe := yoe * 365 + yoe / 4 - yoe / 100 + doy
  era * 146097 + doe

/-- The civil date of a day number (the standard civil-from-days algorithm,
inverse of `toDayNumber`). -/
def ofDayNumber (z : Nat) : Nat × Nat × Nat :=
  let era := z / 146097
  let doe := z % 146097
  let yoe := (doe - doe / 1460 + doe / 36524 - doe / 146096) / 365
  let doy := doe - (365 * yoe + yoe / 4 - yoe / 100)
  let mp := (5 * doy + 2) / 153
  let d := doy - (153 * mp + 2) / 5 + 1
  let m := if mp < 10 then mp + 3 else mp - 9
  (yoe + era * 400 + (if m ≤ 2 then 1 else 0), m, d)

/-- Zero-padded two-digit field of `strftime('%Y-%m-%d')`. -/
def pad2 (n : Nat) : String :=
  if n < 10 then "0" ++ toString n else toString n

/-- Embedding of `strftime('%Y-%m-%d')` for the year range the data uses. -/
def fmtDate (y m d : Nat) : String :=
  toString y ++ "-" ++ pad2 m ++ "-" ++ pad2 d

/-- Embedding of `calculate_next_deadline` (identical in
scrapers/academies_scraper.py lines 316-327 and
scrapers/foundations_scraper.py lines 444-455).  `strptime` has no handler,
so an unparseable deadline propagates `ValueError`; a frequency containing
`"Annual"` uses `date.replace(year=year+1)`, which raises `ValueError` when
Feb 29 has no counterpart in the target year (and when the year leaves the
supported range); `"Bi-annual"` (which does not contain the capitalized
`"Annual"`) adds 180 days and anything else adds 365 days, raising
`OverflowError` past year 9999. -/
def calculate_next_deadline (deadline frequency : String) : Except String String :=
  match parseDate deadline with
  | none => Except.error "ValueError"
  | some (y, m, d) =>
    if strContainsSub frequency "Annual" then
      if y + 1 ≤ 9999 && d ≤ daysInMonth (y + 1) m then
        Except.ok (fmtDate (y + 1) m d)
      else Except.error "ValueError"
    else
      let days := if strContainsSub frequency "Bi-annual" then 180 else 365
      match ofDayNumber (toDayNumber y m d + days) with
      | (y2, m2, d2) =>
        if y2 ≤ 9999 then Except.ok (fmtDate y2 m2 d2)
        else Except.error "OverflowError"

/-- Embedding of Python `int(s)` for the strings `determine_competition_level`
feeds it: optional surrounding whitespace, an optional sign, then one or more
decimal digits; anything else raises `ValueError`.  (Python additionally
allows underscores between digits; no success-rate string in the repository
uses that form, so it is out of scope.) -/
def pyIntParse (s : String) : Option Int :=
  let t := s.data.dropWhile (fun c => c == ' ') |>.reverse.dropWhile (fun c => c == ' ') |>.reverse
  match t with
  | '-' :: rest =>
    if rest ≠ [] && rest.all Char.isDigit then some (-(digitsToNat rest : Int)) else none
  | '+' :: rest =>
    if rest ≠ [] && rest.all Char.isDigit then some ((digitsToNat rest : Int)) else none
  | rest =>
    if rest ≠ [] && rest.all Char.isDigit then some ((digitsToNat rest : Int)) else none

/-- Embedding of `success_rate.replace('%', '')`: every occurrence of the
one-character pattern is removed. -/
def stripPercent (s : String) : String :=
  String.mk (s.data.filter (fun c => !(c == '%')))

/-- Embedding of `FoundationsScraper.determine_competition_level`
(scrapers/foundations_scraper.py lines 468-479):
`int(success_rate.replace('%', ''))` followed by the threshold chain; the
`int` conversion has no handler, so an unparseable rate raises
`ValueError`. -/
def determine_competition_level (success_rate : String) : Except String String :=
  match pyIntParse (stripPercent success_rate) with
  | none => Except.error "ValueError"
  | some rate =>
    Except.ok
      (if rate ≤ 10 then "Extremely Competitive"
       else if rate ≤ 20 then "Very Competitive"
       else if rate ≤ 30 then "Competitive"
       else "Moderately Competitive")

/-- Embedding of `FoundationsScraper.determine_priority_level`
(scrapers/foundations_scraper.py lines 457-466). -/
def determine_priority_level_foundations (max_amount : Int) : String :=
  if max_amount ≥ 1000000 then "Very High"
  else if max_amount ≥ 500000 then "High"
  else if max_amount ≥ 200000 then "Medium"
  else "Low"

/-- Embedding of `AcademiesScraper.determine_priority_level`
(scrapers/academies_scraper.py lines 329-338). -/
def determine_priority_level_academies (max_amount : Int) : String :=
  if max_amount ≥ 500000 then "Very High"
  else if max_amount ≥ 200000 then "High"
  else if max_amount ≥ 50000 then "Medium"
  else "Low"

/-- Embedding of `AcademiesScraper.estimate_success_rate`
(scrapers/academies_scraper.py lines 340-349). -/
def estimate_success_rate (career_stage : String) : String :=
  if career_stage == "Early Career" then "15%"
  else if career_stage == "Mid Career" then "20%"
  else if career_stage == "Senior" then "25%"
  else if career_stage == "All Stages" then "18%"
  else "18%"

/-- Embedding of `FoundationsScraper.get_standard_requirements`
(scrapers/foundations_scraper.py lines 404-429), with the dictionary's
`"All Stages"` fallback for unrecognized stages. -/
def get_standard_requirements_foundations (career_stage : String) : List String :=
  if career_stage == "Early Career" then
    ["PhD or equivalent qualification", "Within 8 years of PhD completion",
     "Demonstrated research potential"]
  else if career_stage == "Mid Career" then
    ["Established research track record", "Independent research experience",
     "Institutional affiliation"]
  else if career_stage == "Senior" then
    ["Senior academic position", "Significant research achievements",
     "Leadership in field"]
  else
    ["Employed at eligible institution", "Research proposal within scope",
     "Demonstrated research capability"]

/-- Embedding of `AcademiesScraper.get_standard_requirements`
(scrapers/academies_scraper.py lines 290-314). -/
def get_standard_requirements_academies (career_stage : String) : List String :=
  if career_stage == "Early Career" then
    ["PhD completed within 8 years", "Demonstrated research excellence",
     "UK-based position or offer"]
  else if career_stage == "Mid Career" then
    ["Established research track record", "Independent research experience",
     "UK-based position"]
  else if career_stage == "Senior" then
    ["Senior academic position", "Significant research achievements",
     "Leadership experience"]
  else
    ["Employed at eligible UK institution", "Research proposal in scope"]

/-- Embedding of `FoundationsScraper.get_funding_covers`
(scrapers/foundations_scraper.py lines 431-442). -/
def get_funding_covers (title : String) : List String :=
  let t := String.mk (title.data.map pyLowerChar)
  if strContainsSub t "fellowship" then
    ["Salary", "Research expenses", "Equipment", "Travel", "Training"]
  else if strContainsSub t "training" then
    ["Stipend", "Training costs", "Travel", "Accommodation"]
  else if strContainsSub t "equipment" then
    ["Equipment", "Installation", "Maintenance", "Training"]
  else
    ["Research costs", "Equipment", "Travel", "Consumables"]

/-- Embedding of `FoundationsScraper.get_foundation_email`
(scrapers/foundations_scraper.py lines 481-491). -/
def get_foundation_email (base_url : String) : String :=
  if base_url == "https://wellcome.org" then "grantsenquiries@wellcome.org"
  else if base_url == "https://www.leverhulme.ac.uk" then "enquiries@leverhulme.ac.uk"
  else if base_url == "https://www.nuffieldfoundation.org" then "info@nuffieldfoundation.org"
  else if base_url == "https://www.wolfson.org.uk" then "info@wolfson.org.uk"
  else ""

/-- A raw scheme dictionary as the foundations and academies scrapers build
them: the nested `amount` keys are flattened into fields, and
`success_rate` is optional because the Wellcome, Leverhulme and Nuffield
scheme dictionaries omit that key (reading it then raises `KeyError`). -/
structure Scheme where
  title : String
  description : String
  career_stage : String
  amountMin : Int
  amountMax : Int
  duration_years : Int
  deadline : String
  frequency : String
  tags : List String
  success_rate : Option String
  deriving DecidableEq, Repr

/-- The `eligibility` sub-dictionary of a built funding object. -/
structure BuiltEligibility where
  career_stage : String
  disciplines : List String
  requirements : List String
  deriving DecidableEq, Repr

/-- The `funding_details.amount` sub-dictionary of a built funding object. -/
structure BuiltAmount where
  min : Int
  max : Int
  currency : String
  duration_years : Int
  deriving DecidableEq, Repr

/-- The `funding_details` sub-dictionary of a built funding object. -/
structure BuiltFundingDetails where
  amount : BuiltAmount
  covers : List String
  deriving DecidableEq, Repr

/-- The `application` sub-dictionary of a built funding object. -/
structure BuiltApplication where
  deadline : String
  next_deadline : String
  frequency : String
  application_url : String
  guidelines_url : String
  deriving DecidableEq, Repr

/-- The `key_info` sub-dictionary of a built funding object. -/
structure KeyInfo where
  priority_level : String
  competition_level : String
  success_rate : String
  deriving DecidableEq, Repr

/-- The `contact` sub-dictionary of a built funding object. -/
structure Contact where
  email : String
  phone : String
  deriving DecidableEq, Repr

/-- A fully-built funding object as `create_funding_object` returns it. -/
structure BuiltFunding where
  id : String
  title : String
  organization : String
  category : String
  subcategory : String
  description : String
  eligibility : BuiltEligibility
  funding_details : BuiltFundingDetails
  application : BuiltApplication
  key_info : KeyInfo
  contact : Contact
  tags : List String
  last_updated : String
  scraped_from : String
  status : String
  deriving DecidableEq, Repr

/-- Embedding of `FoundationsScraper.create_funding_object`
(scrapers/foundations_scraper.py lines 357-402).  The id is
`generate_id(scheme['title'], 'Foundation')` — the literal string
`'Foundation'`, not the foundation's name; `organization` is left empty here
and overwritten later by `scrape_foundation`.  Python evaluates the dict
literal in order, so a `ValueError` from `calculate_next_deadline` fires
before the `scheme['success_rate']` access (`KeyError` when absent) and the
`determine_competition_level` conversion. -/
def create_funding_object_foundations (base_url now : String) (scheme : Scheme) :
    Except String BuiltFunding :=
  match calculate_next_deadline scheme.deadline scheme.frequency with
  | Except.error e => Except.error e
  | Except.ok nd =>
    match scheme.success_rate with
    | none => Except.error "KeyError"
    | some sr =>
      match determine_competition_level sr with
      | Except.error e => Except.error e
      | Except.ok cl =>
        Except.ok
          { id := generate_id scheme.title "Foundation"
            title := scheme.title
            organization := ""
            category := "foundations"
            subcategory := ""
            description := scheme.description
            eligibility :=
              { career_stage := scheme.career_stage
                disciplines := []
                requirements := get_standard_requirements_foundations scheme.career_stage }
            funding_details :=
              { amount :=
                  { min := scheme.amountMin, max := scheme.amountMax,
                    currency := "GBP", duration_years := scheme.duration_years }
                covers := get_funding_covers scheme.title }
            application :=
              { deadline := scheme.deadline, next_deadline := nd,
                frequency := scheme.frequency,
                application_url := base_url, guidelines_url := base_url }
            key_info :=
              { priority_level := determine_priority_level_foundations scheme.amountMax
                competition_level := cl
                success_rate := sr }
            contact := { email := get_foundation_email base_url, phone := "" }
            tags := scheme.tags
            last_updated := now
            scraped_from := base_url
            status := "active" }

/-- Embedding of `AcademiesScraper.create_funding_object`
(scrapers/academies_scraper.py lines 243-288).  The id is
`generate_id(scheme['title'], 'Academy')` — the literal string `'Academy'`;
`competition_level` is the constant `'Very Competitive'` and the success rate
is estimated from the career stage. -/
def create_funding_object_academies (base_url now : String) (scheme : Scheme) :
    Except String BuiltFunding :=
  match calculate_next_deadline scheme.deadline scheme.frequency with
  | Except.error e => Except.error e
  | Except.ok nd =>
    Except.ok
      { id := generate_id scheme.title "Academy"
        title := scheme.title
        organization := ""
        category := "academies"
        subcategory := ""
        description := scheme.description
        eligibility :=
          { career_stage := scheme.career_stage
            disciplines := []
            requirements := get_standard_requirements_academies scheme.career_stage }
        funding_details :=
          { amount :=
              { min := scheme.amountMin, max := scheme.amountMax,
                currency := "GBP", duration_years := scheme.duration_years }
            covers := ["Salary", "Research expenses", "Equipment", "Travel"] }
        application :=
          { deadline := scheme.deadline, next_deadline := nd,
            frequency := scheme.frequency,
            application_url := "", guidelines_url := "" }
        key_info :=
          { priority_level := determine_priority_level_academies scheme.amountMax
            competition_level := "Very Competitive"
            success_rate := estimate_success_rate scheme.career_stage }
        contact := { email := "", phone := "" }
        tags := scheme.tags
        last_updated := now
        scraped_from := base_url
        status := "active" }

/-- Embedding of the per-record patching in `scrape_foundation`
(scrapers/foundations_scraper.py lines 102-106): after the objects are built,
the foundation's display name, category, subcategory and focus areas are
written into each record — the id is not recomputed. -/
def applyFoundationInfo (name subcat : String) (focus : List String)
    (f : BuiltFunding) : BuiltFunding :=
  { f with organization := name, category := "foundations", subcategory := subcat,
           eligibility := { f.eligibility with disciplines := focus } }

/-- Embedding of the per-record patching in `scrape_academy`
(scrapers/academies_scraper.py lines 100-103). -/
def applyAcademyInfo (name subcat : String) (disciplines : List String)
    (f : BuiltFunding) : BuiltFunding :=
  { f with organization := name, category := "academies", subcategory := subcat,
           eligibility := { f.eligibility with disciplines := disciplines } }

/-- A scheme with a parseable deadline and parseable success rate, usable by
two different foundations; only the title and organization could enter id
generation. -/
def schemeShared : Scheme :=
  { title := "Research Excellence Awards"
    description := "Support for excellence in science and medicine research"
    career_stage := "All Stages"
    amountMin := 200000
    amountMax := 1000000
    duration_years := 3
    deadline := "2024-09-15"
    frequency := "Annual"
    tags := ["excellence"]
    success_rate := some "25%" }

/-- The `schemeShared` record with the unparseable success rate `"N/A"` that
the Wolfson scheme dictionaries carry. -/
def schemeRateNA : Scheme :=
  { schemeShared with success_rate := some "N/A" }

/-- The record built from `schemeShared` and patched as for the Wellcome
Trust. -/
def wellcomeBuilt : Except String BuiltFunding :=
  Except.map
    (applyFoundationInfo "The Wellcome Trust" "wellcome_trust"
      ["Biomedical Research", "Medical Humanities", "Global Health"])
    (create_funding_object_foundations "https://wellcome.org" "t" schemeShared)

/-- The record built from the same scheme and patched as for the Leverhulme
Trust. -/
def leverhulmeBuilt : Except String BuiltFunding :=
  Except.map
    (applyFoundationInfo "The Leverhulme Trust" "leverhulme_trust"
      ["All Academic Disciplines"])
    (create_funding_object_foundations "https://www.leverhulme.ac.uk" "t" schemeShared)

/-- An all-empty built record, used only as the `Option.getD` default when a
build is known to succeed. -/
def dummyBuilt : BuiltFunding :=
  { id := "", title := "", organization := "", category := "", subcategory := "",
    description := ""
    eligibility := { career_stage := "", disciplines := [], requirements := [] }
    funding_details :=
      { amount := { min := 0, max := 0, currency := "", duration_years := 0 },
        covers := [] }
    application :=
      { deadline := "", next_deadline := "", frequency := "",
        application_url := "", guidelines_url := "" }
    key_info := { priority_level := "", competition_level := "", success_rate := "" }
    contact := { email := "", phone := "" }
    tags := [], last_updated := "", scraped_from := "", status := "" }

/-- The successfully built record for `schemeShared` (the build succeeds, so
the default is never used). -/
def builtSharedW : BuiltFunding :=
  ((create_funding_object_foundations "u" "t" schemeShared).toOption).getD dummyBuilt

/-! ## Summary reporter and persistence

`FundingDataUpdater.generate_summary_report` (scrapers/update_all.py lines
133-188) computes funding totals with plain `sum(...)`; `save_json`
(scrapers/utils.py lines 205-219) opens the target with mode `'w'` —
truncating it — and streams `json.dump` into it, returning `False` on any
exception.  The file system is modelled as an explicit `Option String`
(absent file or current contents), and the nondeterministic outcome of the
write as a `WriteOutcome` value. -/

/-- The access `f['funding_details']['amount']`; a missing key raises
`KeyError`. -/
def getAmount (f : Funding) : Except String Amount :=
  match f.funding_details with
  | none => Except.error "KeyError"
  | some fd =>
    match fd.amount with
    | none => Except.error "KeyError"
    | some a => Except.ok a

/-- Embedding of `sum(f['funding_details']['amount'][key] for f in fundings)`
(scrapers/update_all.py lines 150-151): `sum` starts from the integer 0 and
adds each projected amount in order; a missing key raises `KeyError` and a
string amount raises `TypeError` (`int + str`), exactly when the generator
reaches that record.  There is no handler and no coercion to 0. -/
def sumAmounts (proj : Amount → PyVal) (acc : Int) : List Funding → Except String Int
  | [] => Except.ok acc
  | f :: fs =>
    match getAmount f with
    | Except.error e => Except.error e
    | Except.ok a =>
      match proj a with
      | PyVal.str _ => Except.error "TypeError"
      | PyVal.int n => sumAmounts proj (acc + n) fs

/-- The reporter's `total_min_funding` (scrapers/update_all.py line 150). -/
def total_min_funding (fundings : List Funding) : Except String Int :=
  sumAmounts Amount.min 0 fundings

/-- The reporter's `total_max_funding` (scrapers/update_all.py line 151). -/
def total_max_funding (fundings : List Funding) : Except String Int :=
  sumAmounts Amount.max 0 fundings

/-- A valid record with the given amounts. -/
def sampleWithAmount (i : String) (mn mx : PyVal) : Funding :=
  { sampleValid i with funding_details := some { amount := some { min := mn, max := mx } } }

/-- The claim's example batch: amounts `{min:100, max:200}` and
`{min:"N/A", max:300}`. -/
def summaryExampleBatch : List Funding :=
  [sampleWithAmount "a" (PyVal.int 100) (PyVal.int 200),
   sampleWithAmount "b" (PyVal.str "N/A") (PyVal.int 300)]

/-- How one `save_json` call turns out: the whole dump is written, the
`open(file_path, 'w')` itself fails (before anything is truncated), or the
dump fails after `written` characters reached the already-truncated file. -/
inductive WriteOutcome where
  | success
  | openFail
  | dumpFail (written : Nat)
  deriving DecidableEq, Repr

/-- Embedding of `save_json` (scrapers/utils.py lines 205-219): the function
returns `True` after a complete write and `False` on any exception (the
handler swallows everything).  Opening with mode `'w'` truncates the file, so
a failure during `json.dump` leaves the prefix written so far; a failure at
open time leaves the previous contents. -/
def save_json (data : String) (disk : Option String) :
    WriteOutcome → Bool × Option String
  | WriteOutcome.success => (true, some data)
  | WriteOutcome.openFail => (false, disk)
  | WriteOutcome.dumpFail k => (false, some (String.mk (data.data.take k)))

/-- `update_database` together with its persistence step (scrapers/utils.py
lines 270-278): on an internal exception the caught handler returns `False`
with the disk untouched; otherwise the merged database is serialized (the
`json.dump` text is abstracted as `encode`) and handed to `save_json`, whose
boolean decides the return value (`return True` after a successful save,
`return False` otherwise). -/
def update_database_io (now : String) (loaded : Option Database)
    (new_fundings : List Funding) (encode : Database → String)
    (disk : Option String) (w : WriteOutcome) : Bool × Option String :=
  match update_database now loaded new_fundings with
  | Except.error _ => (false, disk)
  | Except.ok db => save_json (encode db) disk w

/-! ## Support lemmas about the merge embedding -/

theorem validate_id_isSome {f : Funding} (h : validate_funding_data f = true) :
    f.id.isSome := by
  simp only [validate_funding_data, Bool.and_eq_true] at h
  exact h.1.1.1.1.1.1.1.1.1

theorem idsOf_ok {fs : List Funding} {l : List String}
    (h : idsOf fs = Except.ok l) :
    l = fs.map idD ∧ ∀ f ∈ fs, f.id.isSome := by
  induction fs generalizing l with
  | nil =>
    simp only [idsOf, Except.ok.injEq] at h
    simp [← h]
  | cons f fs ih =>
    simp only [idsOf] at h
    cases hid : f.id with
    | none => rw [hid] at h; exact absurd h (by simp)
    | some i =>
      rw [hid] at h
      cases hfs : idsOf fs with
      | error e => rw [hfs] at h; exact absurd h (by simp [Except.map])
      | ok l' =>
        rw [hfs] at h
        simp only [Except.map, Except.ok.injEq] at h
        obtain ⟨hl', hall⟩ := ih hfs
        refine ⟨?_, ?_⟩
        · simp [← h, hl', idD, hid]
        · intro g hg
          rcases List.mem_cons.mp hg with hg | hg
          · rw [hg, hid]; rfl
          · exact hall g hg

theorem idsOf_of_all {fs : List Funding} (h : ∀ f ∈ fs, f.id.isSome) :
    idsOf fs = Except.ok (fs.map idD) := by
  induction fs with
  | nil => simp [idsOf]
  | cons f fs ih =>
    have hf : f.id.isSome := h f (by simp)
    cases hid : f.id with
    | none => rw [hid] at hf; simp at hf
    | some i =>
      simp only [idsOf, hid, ih (fun g hg => h g (by simp [hg])), Except.map]
      simp [idD, hid]

theorem filterNewFundings_eq_filter (ids : List String) (l : List Funding) :
    filterNewFundings ids l =
      l.filter (fun f => validate_funding_data f && !(ids.contains (idD f))) := by
  induction l with
  | nil => simp [filterNewFundings]
  | cons f fs ih =>
    by_cases hc : (validate_funding_data f && !(ids.contains (idD f))) = true
    · simp [filterNewFundings, hc, List.filter_cons, ih]
    · simp [filterNewFundings, hc, List.filter_cons, ih]

theorem mem_filterNewFundings {ids : List String} {l : List Funding} {f : Funding} :
    f ∈ filterNewFundings ids l ↔
      f ∈ l ∧ validate_funding_data f = true ∧ ids.contains (idD f) = false := by
  rw [filterNewFundings_eq_filter]
  simp [List.mem_filter, Bool.and_eq_true, Bool.not_eq_true']

/-! ## Claim C1 -/

/-- C1 (counterexample).  The claim asserts that after every successful merge
no two records in `fundings` share an id.  Starting from an absent store and
merging a batch that contains the same valid record twice, `update_database`
succeeds yet stores the id "x" twice, because the merge loop never adds the
ids of freshly appended records to its duplicate-check set. -/
theorem update_database_duplicate_ids_cex :
    update_database "t" none [sampleValid "x", sampleValid "x"] =
      Except.ok { last_updated := "t", total_fundings := 2,
                  fundings := [sampleValid "x", sampleValid "x"] } ∧
    ¬ ([sampleValid "x", sampleValid "x"].map idD).Nodup := by
  constructor
  · rfl
  · simp [idD, sampleValid]

/-- C1 (amended).  After a successful merge the stored database satisfies
`total_fundings = len(fundings)`, the stored list is the pre-merge list
extended by exactly the valid new records whose ids are absent from the
pre-merge id set, and every appended record's id is new with respect to the
pre-merge store.  Full id-uniqueness additionally requires that the pre-merge
ids were unique and that the appended records carry pairwise distinct ids;
without the latter hypothesis it fails (see the counterexample). -/
theorem update_database_invariants
    (now : String) (loaded : Option Database) (new_fundings : List Funding)
    (db : Database) (h : update_database now loaded new_fundings = Except.ok db) :
    db.total_fundings = db.fundings.length ∧
    db.fundings = (startDb now loaded).fundings ++
      filterNewFundings ((startDb now loaded).fundings.map idD) new_fundings ∧
    (∀ f ∈ filterNewFundings ((startDb now loaded).fundings.map idD) new_fundings,
      idD f ∉ (startDb now loaded).fundings.map idD) ∧
    (((startDb now loaded).fundings.map idD).Nodup →
      ((filterNewFundings ((startDb now loaded).fundings.map idD) new_fundings).map idD).Nodup →
      (db.fundings.map idD).Nodup) := by
  unfold update_database at h
  cases hids : idsOf (startDb now loaded).fundings with
  | error e => rw [hids] at h; exact absurd h (by simp)
  | ok ids =>
    rw [hids] at h
    simp only [Except.ok.injEq] at h
    obtain ⟨hmap, _⟩ := idsOf_ok hids
    subst hmap
    have hmem : ∀ f ∈ filterNewFundings ((startDb now loaded).fundings.map idD) new_fundings,
        idD f ∉ (startDb now loaded).fundings.map idD := by
      intro f hf
      have := (mem_filterNewFundings.mp hf).2.2
      simpa using this
    refine ⟨?_, ?_, hmem, ?_⟩
    · rw [← h]
    · rw [← h]
    · intro h1 h2
      rw [← h]
      simp only [List.map_append]
      rw [List.nodup_append]
      refine ⟨h1, h2, ?_⟩
      intro a ha hb
      obtain ⟨f, hf, rfl⟩ := List.mem_map.mp hb
      exact hmem f hf ha

/-- C1 (witness).  The amended theorem applied to a concrete successful merge
of a single valid record into an absent store. -/
theorem update_database_invariants_witness :
    (Database.mk "t" 1 [sampleValid "x"]).total_fundings =
      (Database.mk "t" 1 [sampleValid "x"]).fundings.length ∧
    ((Database.mk "t" 1 [sampleValid "x"]).fundings.map idD).Nodup := by
  have h := update_database_invariants "t" none [sampleValid "x"]
    (Database.mk "t" 1 [sampleValid "x"]) rfl
  exact ⟨h.1, h.2.2.2 (by simp [startDb, emptyDatabase]) (by
    simp [startDb, emptyDatabase, filterNewFundings, sampleValid, validate_funding_data, idD])⟩

/-! ## Claim C2 -/

/-- C2 (counterexample).  The claim's per-record description says that an
appended record's id is added to the existing-id set, so the second occurrence
of id "C" in the batch would be skipped and the result would hold ids
{A, B, C} with `total_fundings = 3`.  The code does not extend the set: both
"C" records are appended and the total is 4. -/
theorem update_database_no_set_extension_cex :
    update_database "t"
      (some { last_updated := "old", total_fundings := 2,
              fundings := [sampleValid "A", sampleValid "B"] })
      [sampleValid "C", sampleValid "C"] =
      Except.ok { last_updated := "t", total_fundings := 4,
                  fundings := [sampleValid "A", sampleValid "B",
                               sampleValid "C", sampleValid "C"] } ∧
    ¬ ([sampleValid "A", sampleValid "B", sampleValid "C", sampleValid "C"].map idD).Nodup := by
  constructor
  · rfl
  · simp [idD, sampleValid]

/-- C2 (amended).  The merge processes new records in input order; an invalid
record is skipped, a record whose id is in the id set built from the pre-merge
store is skipped, and every other record is appended — but the id set is
never extended during the loop, so the loop equals a filter against the
initial set and a duplicate id later in the same batch is appended again.
The claim's concrete example still holds: merging a store with ids {A, B}
against [A(valid), C(valid), D(invalid, missing description)] yields exactly
ids {A, B, C} with `total_fundings = 3`. -/
theorem update_database_merge_order :
    (∀ (ids : List String) (l : List Funding),
      filterNewFundings ids l =
        l.filter (fun f => validate_funding_data f && !(ids.contains (idD f)))) ∧
    update_database "t"
      (some { last_updated := "old", total_fundings := 2,
              fundings := [sampleValid "A", sampleValid "B"] })
      [sampleValid "A", sampleValid "C", sampleMissingDescription "D"] =
      Except.ok { last_updated := "t", total_fundings := 3,
                  fundings := [sampleValid "A", sampleValid "B", sampleValid "C"] } ∧
    ([sampleValid "A", sampleValid "B", sampleValid "C"].map idD) = ["A", "B", "C"] :=
  ⟨filterNewFundings_eq_filter, rfl, rfl⟩

/-! ## Claim C3 -/

/-- C3 (confirmed).  Merging the same batch a second time into the database
produced by a successful first merge returns that database unchanged: every
record the first merge appended now has its id in the existing-id set, every
record it skipped is skipped again, and the recomputed metadata coincides
(time is modelled as the explicit `now` argument of the merge). -/
theorem update_database_idempotent
    (now : String) (loaded : Option Database) (new_fundings : List Funding)
    (db : Database) (h : update_database now loaded new_fundings = Except.ok db) :
    update_database now (some db) new_fundings = Except.ok db := by
  unfold update_database at h
  cases hids : idsOf (startDb now loaded).fundings with
  | error e => rw [hids] at h; exact absurd h (by simp)
  | ok ids =>
    rw [hids] at h
    simp only [Except.ok.injEq] at h
    obtain ⟨hmap, hall⟩ := idsOf_ok hids
    subst hmap
    set start := (startDb now loaded).fundings with hstart
    set appended := filterNewFundings (start.map idD) new_fundings with happ
    have hallNew : ∀ f ∈ start ++ appended, f.id.isSome := by
      intro f hf
      rcases List.mem_append.mp hf with hf | hf
      · exact hall f hf
      · exact validate_id_isSome (mem_filterNewFundings.mp hf).2.1
    have hids2 : idsOf (start ++ appended) = Except.ok ((start ++ appended).map idD) :=
      idsOf_of_all hallNew
    have hfilter2 : filterNewFundings ((start ++ appended).map idD) new_fundings = [] := by
      rw [filterNewFundings_eq_filter]
      rw [List.filter_eq_nil_iff]
      intro f hf
      by_cases hv : validate_funding_data f = true
      · have hcontains : ((start ++ appended).map idD).contains (idD f) = true := by
          by_cases hc : (start.map idD).contains (idD f) = true
          · have hm : idD f ∈ (start ++ appended).map idD := by
              simp only [List.map_append, List.mem_append]
              left
              simpa using hc
            simpa using hm
          · have hfapp : f ∈ appended := by
              rw [happ, mem_filterNewFundings]
              exact ⟨hf, hv, by simpa using hc⟩
            have hm : idD f ∈ (start ++ appended).map idD := by
              simp only [List.map_append, List.mem_append]
              right
              exact List.mem_map_of_mem idD hfapp
            simpa using hm
        rw [hv, hcontains]
        decide
      · rw [Bool.not_eq_true] at hv
        rw [hv]
        simp
    have hdbf : db.fundings = start ++ appended := by rw [← h]
    unfold update_database
    simp only [startDb, Option.getD_some, hdbf, hids2, hfilter2, List.append_nil]
    rw [← h]

/-- C3 (witness).  Idempotence instantiated on the concrete successful merge
of one valid record into a store that already holds a different id. -/
theorem update_database_idempotent_witness :
    update_database "t"
      (some { last_updated := "t", total_fundings := 2,
              fundings := [sampleValid "A", sampleValid "x"] })
      [sampleValid "x"] =
      Except.ok { last_updated := "t", total_fundings := 2,
                  fundings := [sampleValid "A", sampleValid "x"] } :=
  update_database_idempotent "t"
    (some { last_updated := "old", total_fundings := 1,
            fundings := [sampleValid "A"] })
    [sampleValid "x"]
    { last_updated := "t", total_fundings := 2,
      fundings := [sampleValid "A", sampleValid "x"] } rfl

/-! ## Claim C4 -/

/-- C4 (confirmed).  `validate_funding_data` returns `true` exactly when all
eight required top-level fields are present, `funding_details` contains an
`amount` key and `application` contains a `deadline` key; it is a total
boolean function of the record, so it returns `false` — and cannot raise —
for every record missing a required field. -/
theorem validate_funding_data_iff (f : Funding) :
    validate_funding_data f = true ↔
      (f.id.isSome = true ∧ f.title.isSome = true ∧ f.organization.isSome = true ∧
       f.category.isSome = true ∧ f.description.isSome = true ∧
       f.eligibility.isSome = true ∧
       (∃ fd, f.funding_details = some fd ∧ fd.amount.isSome = true) ∧
       (∃ a, f.application = some a ∧ a.deadline.isSome = true)) := by
  cases hfd : f.funding_details with
  | none => simp [validate_funding_data, hfd]
  | some fd =>
    cases ha : f.application with
    | none => simp [validate_funding_data, hfd, ha]
    | some a =>
      simp [validate_funding_data, hfd, ha, Bool.and_eq_true, and_assoc]

/-! ## Support lemmas about the slug -/

theorem toNat_ofNat_valid {n : Nat} (h : n < 55296) : (Char.ofNat n).toNat = n := by
  have hv : n.isValidChar := Or.inl h
  rw [Char.ofNat, dif_pos hv, Char.ofNatAux]
  rfl

theorem pyLowerChar_not_upper (c : Char) : ¬ isUpperAscii (pyLowerChar c) := by
  unfold pyLowerChar isUpperAscii
  by_cases h : 65 ≤ c.toNat ∧ c.toNat ≤ 90
  · rw [if_pos h]
    rw [toNat_ofNat_valid (by omega)]
    omega
  · rw [if_neg h]
    omega

theorem mem_replRunsAux {p : Char → Bool} {b : Bool} {l : List Char} {c : Char}
    (h : c ∈ replRunsAux p b l) : (c ∈ l ∧ p c = true) ∨ c = '_' := by
  induction l generalizing b with
  | nil => simp [replRunsAux] at h
  | cons x xs ih =>
    simp only [replRunsAux] at h
    by_cases hx : p x = true
    · rw [if_pos hx] at h
      rcases List.mem_cons.mp h with h | h
      · exact Or.inl ⟨by simp [h], h ▸ hx⟩
      · rcases ih h with ⟨hm, hp⟩ | h
        · exact Or.inl ⟨by simp [hm], hp⟩
        · exact Or.inr h
    · rw [if_neg hx] at h
      by_cases hb : b = true
      · rw [hb, if_pos rfl] at h
        rcases ih h with ⟨hm, hp⟩ | h
        · exact Or.inl ⟨by simp [hm], hp⟩
        · exact Or.inr h
      · rw [Bool.not_eq_true] at hb
        rw [hb] at h
        simp only [Bool.false_eq_true, if_false] at h
        rcases List.mem_cons.mp h with h | h
        · exact Or.inr h
        · rcases ih h with ⟨hm, hp⟩ | h
          · exact Or.inl ⟨by simp [hm], hp⟩
          · exact Or.inr h

theorem head?_replRunsAux_true {p : Char → Bool} {l : List Char} {c : Char}
    (h : (replRunsAux p true l).head? = some c) : p c = true := by
  induction l with
  | nil => simp [replRunsAux] at h
  | cons x xs ih =>
    simp only [replRunsAux] at h
    by_cases hx : p x = true
    · rw [if_pos hx] at h
      simp only [List.head?_cons, Option.some.injEq] at h
      exact h ▸ hx
    · rw [if_neg hx] at h
      simp only [if_true] at h
      exact ih h

theorem chain'_replRunsAux {p : Char → Bool} (hp : p '_' = false)
    (l : List Char) (b : Bool) : List.Chain' noAdjSep (replRunsAux p b l) := by
  induction l generalizing b with
  | nil => simp [replRunsAux]
  | cons x xs ih =>
    simp only [replRunsAux]
    by_cases hx : p x = true
    · rw [if_pos hx]
      rw [List.chain'_cons']
      refine ⟨?_, ih false⟩
      intro y _ hcon
      rw [hcon.1] at hx
      rw [hp] at hx
      exact Bool.false_ne_true hx
    · rw [if_neg hx]
      by_cases hb : b = true
      · rw [hb, if_pos rfl]
        exact ih true
      · rw [Bool.not_eq_true] at hb
        rw [hb]
        simp only [Bool.false_eq_true, if_false]
        rw [List.chain'_cons']
        refine ⟨?_, ih true⟩
        intro y hy hcon
        have hpy : p y = true := by
          cases hh : (replRunsAux p true xs).head? with
          | none => rw [hh] at hy; simp at hy
          | some z =>
            rw [hh] at hy
            simp only [Option.mem_def, Option.some.injEq] at hy
            exact hy ▸ head?_replRunsAux_true hh
        rw [hcon.2] at hpy
        rw [hp] at hpy
        exact Bool.false_ne_true hpy

theorem head?_dropWhile {q : Char → Bool} {l : List Char} {c : Char}
    (h : (l.dropWhile q).head? = some c) : q c = false := by
  induction l with
  | nil => simp [List.dropWhile] at h
  | cons x xs ih =>
    simp only [List.dropWhile] at h
    by_cases hx : q x = true
    · rw [hx] at h
      exact ih h
    · rw [Bool.not_eq_true] at hx
      rw [hx] at h
      simp only [List.head?_cons, Option.some.injEq] at h
      exact h ▸ hx

theorem getLast?_dropWhile_ne_nil {q : Char → Bool} {l : List Char}
    (h : l.dropWhile q ≠ []) : (l.dropWhile q).getLast? = l.getLast? := by
  induction l with
  | nil => simp [List.dropWhile] at h
  | cons x xs ih =>
    by_cases hx : q x = true
    · rw [List.dropWhile_cons_of_pos hx] at h ⊢
      rw [ih h]
      cases hxs : xs with
      | nil =>
        rw [hxs] at h
        simp [List.dropWhile] at h
      | cons y ys => simp
    · rw [List.dropWhile_cons_of_neg hx]

theorem chain'_dropWhile {q : Char → Bool} {l : List Char}
    (h : List.Chain' noAdjSep l) : List.Chain' noAdjSep (l.dropWhile q) := by
  induction l with
  | nil => simp [List.dropWhile]
  | cons x xs ih =>
    simp only [List.dropWhile]
    by_cases hx : q x = true
    · rw [hx]
      exact ih h.tail
    · rw [Bool.not_eq_true] at hx
      rw [hx]
      exact h

theorem noAdjSep_flip {a b : Char} (h : noAdjSep a b) : noAdjSep b a :=
  fun hc => h ⟨hc.2, hc.1⟩

theorem chain'_reverse_noAdjSep {l : List Char}
    (h : List.Chain' noAdjSep l) : List.Chain' noAdjSep l.reverse := by
  rw [List.chain'_reverse]
  exact List.Chain'.imp (fun a b hab => noAdjSep_flip hab) h

theorem mem_stripSep {l : List Char} {c : Char} (h : c ∈ stripSep l) : c ∈ l := by
  unfold stripSep at h
  rw [List.mem_reverse] at h
  have h1 := (List.dropWhile_suffix (l := (l.dropWhile (fun c => c == '_')).reverse)
    (fun c => c == '_')).subset h
  rw [List.mem_reverse] at h1
  exact (List.dropWhile_suffix (fun c => c == '_')).subset h1

theorem chain'_stripSep {l : List Char}
    (h : List.Chain' noAdjSep l) : List.Chain' noAdjSep (stripSep l) := by
  unfold stripSep
  exact chain'_reverse_noAdjSep (chain'_dropWhile (chain'_reverse_noAdjSep (chain'_dropWhile h)))

theorem stripSep_head?_ne_sep {l : List Char} :
    (stripSep l).head? ≠ some '_' := by
  intro h
  unfold stripSep at h
  rw [List.head?_reverse] at h
  have hne : (l.dropWhile (fun c => c == '_')).reverse.dropWhile (fun c => c == '_') ≠ [] := by
    intro hnil
    rw [hnil] at h
    simp at h
  rw [getLast?_dropWhile_ne_nil hne] at h
  rw [List.getLast?_reverse] at h
  have := head?_dropWhile h
  simp at this

theorem stripSep_getLast?_ne_sep {l : List Char} :
    (stripSep l).getLast? ≠ some '_' := by
  intro h
  unfold stripSep at h
  rw [List.getLast?_reverse] at h
  have := head?_dropWhile h
  simp at this

/-! ## Claim C5 -/

/-- C5 (confirmed).  `generate_id` is a pure function of `(title,
organization)`: equal inputs give equal ids, the result is the slug of
`f"{organization}_{title}"` followed by an underscore and the MD5 hex digest
of that combined string, and the slug is lowercase (no ASCII capital
survives), consists of alphanumerics and single separators with no two
adjacent underscores, and is trimmed (it neither starts nor ends with an
underscore). -/
theorem generate_id_deterministic :
    (∀ t₁ o₁ t₂ o₂, t₁ = t₂ → o₁ = o₂ → generate_id t₁ o₁ = generate_id t₂ o₂) ∧
    (∀ t o, generate_id t o =
      String.mk (slugOf (combinedOf t o).data) ++ "_" ++
        md5Hex (strBytes (combinedOf t o))) ∧
    (∀ t o c, c ∈ slugOf (combinedOf t o).data →
      (isAsciiAlnum c = true ∧ ¬ isUpperAscii c) ∨ c = '_') ∧
    (∀ t o, List.Chain' noAdjSep (slugOf (combinedOf t o).data)) ∧
    (∀ t o, (slugOf (combinedOf t o).data).head? ≠ some '_' ∧
            (slugOf (combinedOf t o).data).getLast? ≠ some '_') := by
  refine ⟨?_, ?_, ?_, ?_, ?_⟩
  · intro t₁ o₁ t₂ o₂ ht ho
    rw [ht, ho]
  · intro t o
    rfl
  · intro t o c hmem
    unfold slugOf at hmem
    have h1 := mem_stripSep hmem
    rcases mem_replRunsAux h1 with ⟨h2, hp2⟩ | hsep
    · rcases mem_replRunsAux h2 with ⟨h3, hp1⟩ | hsep
      · left
        refine ⟨hp1, ?_⟩
        obtain ⟨c', _, rfl⟩ := List.mem_map.mp h3
        exact pyLowerChar_not_upper c'
      · right
        exact hsep
    · right
      exact hsep
  · intro t o
    unfold slugOf
    exact chain'_stripSep (chain'_replRunsAux (by decide) _ false)
  · intro t o
    exact ⟨stripSep_head?_ne_sep, stripSep_getLast?_ne_sep⟩

/-- C5 (witness).  Determinism instantiated at a concrete pair of equal
inputs. -/
theorem generate_id_deterministic_witness :
    generate_id "Career Awards" "The Royal Society" =
      generate_id "Career Awards" "The Royal Society" :=
  generate_id_deterministic.1 "Career Awards" "The Royal Society"
    "Career Awards" "The Royal Society" rfl rfl

/-! ## Claim C6 -/

/-- C6 (counterexample).  The claim asserts that every built record's id is
computed from the record's organization together with its title.  Building
the same scheme for two different foundations yields records whose
`organization` fields differ ("The Wellcome Trust" vs "The Leverhulme
Trust") yet whose ids are identical, because `create_funding_object` passes
the literal string `'Foundation'` — never the organization — to
`generate_id`. -/
theorem create_funding_object_id_cex :
    Except.map BuiltFunding.organization wellcomeBuilt =
      Except.ok "The Wellcome Trust" ∧
    Except.map BuiltFunding.organization leverhulmeBuilt =
      Except.ok "The Leverhulme Trust" ∧
    Except.map BuiltFunding.id wellcomeBuilt = Except.map BuiltFunding.id leverhulmeBuilt :=
  ⟨rfl, rfl, rfl⟩

/-- C6 (amended).  Every record built by the foundations (resp. academies)
record builder has id `generate_id(title, 'Foundation')` (resp.
`generate_id(title, 'Academy')`): the id is a pure function of the scheme's
title and a per-scraper constant, hence stable across runs for unchanged
inputs, and the later patching that writes the real organization name never
touches the id — so the record's organization does not feed id generation in
these two scrapers. -/
theorem create_funding_object_id_from_title :
    (∀ base_url now scheme f,
      create_funding_object_foundations base_url now scheme = Except.ok f →
      f.id = generate_id scheme.title "Foundation") ∧
    (∀ base_url now scheme f,
      create_funding_object_academies base_url now scheme = Except.ok f →
      f.id = generate_id scheme.title "Academy") ∧
    (∀ name subcat focus f,
      (applyFoundationInfo name subcat focus f).id = f.id ∧
      (applyFoundationInfo name subcat focus f).organization = name) ∧
    (∀ name subcat disciplines f,
      (applyAcademyInfo name subcat disciplines f).id = f.id ∧
      (applyAcademyInfo name subcat disciplines f).organization = name) := by
  refine ⟨?_, ?_, ?_, ?_⟩
  · intro base_url now scheme f h
    cases hnd : calculate_next_deadline scheme.deadline scheme.frequency with
    | error e => simp [create_funding_object_foundations, hnd] at h
    | ok nd =>
      cases hsr : scheme.success_rate with
      | none => simp [create_funding_object_foundations, hnd, hsr] at h
      | some sr =>
        cases hcl : determine_competition_level sr with
        | error e => simp [create_funding_object_foundations, hnd, hsr, hcl] at h
        | ok cl =>
          simp only [create_funding_object_foundations, hnd, hsr, hcl,
            Except.ok.injEq] at h
          rw [← h]
  · intro base_url now scheme f h
    cases hnd : calculate_next_deadline scheme.deadline scheme.frequency with
    | error e => simp [create_funding_object_academies, hnd] at h
    | ok nd =>
      simp only [create_funding_object_academies, hnd, Except.ok.injEq] at h
      rw [← h]
  · intro name subcat focus f
    exact ⟨rfl, rfl⟩
  · intro name subcat disciplines f
    exact ⟨rfl, rfl⟩

/-- C6 (witness).  The foundations id equation instantiated on the concrete
`schemeShared` build. -/
theorem create_funding_object_id_from_title_witness :
    builtSharedW.id = generate_id schemeShared.title "Foundation" :=
  create_funding_object_id_from_title.1 "u" "t" schemeShared builtSharedW rfl

/-! ## Claim C7 -/

/-- C7 (counterexample).  The claim asserts that an unparseable deadline is
returned unchanged with no exception, and that a Feb 29 deadline rolls to a
defined fallback day.  The code calls `strptime` and `date.replace` with no
handler: `"N/A"` raises `ValueError` (it is not returned as a sentinel), and
so does `2024-02-29` with an `"Annual"` frequency, since 2025 has no
Feb 29. -/
theorem calculate_next_deadline_cex :
    calculate_next_deadline "N/A" "Annual" = Except.error "ValueError" ∧
    calculate_next_deadline "N/A" "Annual" ≠ Except.ok "N/A" ∧
    calculate_next_deadline "2024-02-29" "Annual" = Except.error "ValueError" := by
  refine ⟨rfl, ?_, rfl⟩
  intro h
  rw [show calculate_next_deadline "N/A" "Annual" = Except.error "ValueError" from rfl] at h
  exact Except.noConfusion h

/-- C7 (amended).  For a parseable `%Y-%m-%d` deadline the projection behaves
as claimed: a frequency containing `"Annual"` adds one calendar year (but a
Feb 29 deadline raises `ValueError` in a non-leap target year instead of
falling back), `"Bi-annual"` — which does not contain the capitalized
`"Annual"` — adds 180 days, and any other frequency adds 365 days.  An
unparseable deadline (sentinels such as `"N/A"`, `"Closed"`, `"Rolling"`, or
a bare year) raises `ValueError` rather than being passed through; the
exception is caught only by the per-source handler, which then discards that
source's whole batch. -/
theorem calculate_next_deadline_amended :
    calculate_next_deadline "2024-09-15" "Annual" = Except.ok "2025-09-15" ∧
    calculate_next_deadline "2024-05-30" "Bi-annual" = Except.ok "2024-11-26" ∧
    calculate_next_deadline "2024-12-25" "Quarterly" = Except.ok "2025-12-25" ∧
    (∀ d f, parseDate d = none →
      calculate_next_deadline d f = Except.error "ValueError") ∧
    parseDate "N/A" = none ∧ parseDate "Closed" = none ∧
    parseDate "Rolling" = none ∧ parseDate "2025" = none := by
  refine ⟨rfl, rfl, rfl, ?_, rfl, rfl, rfl, rfl⟩
  intro d f h
  unfold calculate_next_deadline
  rw [h]

/-- C7 (witness).  The unparseable-deadline branch instantiated at the
sentinel `"Closed"`. -/
theorem calculate_next_deadline_amended_witness :
    calculate_next_deadline "Closed" "Annual" = Except.error "ValueError" :=
  calculate_next_deadline_amended.2.2.2.1 "Closed" "Annual" rfl

/-! ## Claim C8 -/

/-- C8 (counterexample).  The claim asserts that an unparseable success rate
is non-fatal, with the `competition_level` field left as the literal input
and the batch unharmed.  `determine_competition_level` calls `int()` with no
handler, so `"N/A"` raises `ValueError` (the field is never set to `"N/A"`),
and building a record whose scheme carries `success_rate = "N/A"` — as every
Wolfson scheme does — fails instead of producing a record. -/
theorem determine_competition_level_cex :
    determine_competition_level "N/A" = Except.error "ValueError" ∧
    determine_competition_level "N/A" ≠ Except.ok "N/A" ∧
    create_funding_object_foundations "https://www.wolfson.org.uk" "t" schemeRateNA =
      Except.error "ValueError" := by
  refine ⟨rfl, ?_, rfl⟩
  intro h
  rw [show determine_competition_level "N/A" = Except.error "ValueError" from rfl] at h
  exact Except.noConfusion h

/-- C8 (amended).  For a success rate that parses as an integer percentage
the thresholds are as claimed (≤10 extremely, ≤20 very, ≤30 competitive,
else moderately competitive); an unparseable rate raises `ValueError`, which
aborts the construction of that record (the per-foundation handler then
drops the foundation's batch) rather than leaving the literal input in the
field. -/
theorem determine_competition_level_amended :
    (∀ s n, pyIntParse (stripPercent s) = some n →
      determine_competition_level s =
        Except.ok
          (if n ≤ 10 then "Extremely Competitive"
           else if n ≤ 20 then "Very Competitive"
           else if n ≤ 30 then "Competitive"
           else "Moderately Competitive")) ∧
    (∀ s, pyIntParse (stripPercent s) = none →
      determine_competition_level s = Except.error "ValueError") ∧
    determine_competition_level "10%" = Except.ok "Extremely Competitive" ∧
    determine_competition_level "20%" = Except.ok "Very Competitive" ∧
    determine_competition_level "30%" = Except.ok "Competitive" ∧
    determine_competition_level "31%" = Except.ok "Moderately Competitive" := by
  refine ⟨?_, ?_, rfl, rfl, rfl, rfl⟩
  · intro s n h
    unfold determine_competition_level
    rw [h]
  · intro s h
    unfold determine_competition_level
    rw [h]

/-- C8 (witness).  The threshold mapping instantiated at the parseable rate
`"25%"`. -/
theorem determine_competition_level_amended_witness :
    determine_competition_level "25%" =
      Except.ok
        (if (25 : Int) ≤ 10 then "Extremely Competitive"
         else if (25 : Int) ≤ 20 then "Very Competitive"
         else if (25 : Int) ≤ 30 then "Competitive"
         else "Moderately Competitive") :=
  determine_competition_level_amended.1 "25%" 25 rfl

/-! ## Claim C9 -/

/-- C9 (support).  When every record's amounts are present and integral, the
reporter's totals are the plain sums of the minima and maxima. -/
theorem sumAmounts_all_int (fs : List Funding) (ns : List (Int × Int)) (acc : Int)
    (h : fs.map (fun f => (getAmount f).map (fun a => (a.min, a.max))) =
      ns.map (fun p => Except.ok (PyVal.int p.1, PyVal.int p.2))) :
    sumAmounts Amount.min acc fs = Except.ok (acc + (ns.map Prod.fst).sum) ∧
    sumAmounts Amount.max acc fs = Except.ok (acc + (ns.map Prod.snd).sum) := by
  induction fs generalizing ns acc with
  | nil =>
    cases ns with
    | nil => simp [sumAmounts]
    | cons p ps => simp at h
  | cons f fs ih =>
    cases ns with
    | nil => simp at h
    | cons p ps =>
      simp only [List.map_cons, List.cons.injEq] at h
      obtain ⟨hhead, htail⟩ := h
      cases hga : getAmount f with
      | error e => rw [hga] at hhead; exact absurd hhead (by simp [Except.map])
      | ok a =>
        rw [hga] at hhead
        simp only [Except.map, Except.ok.injEq, Prod.mk.injEq] at hhead
        obtain ⟨hmin, hmax⟩ := hhead
        obtain ⟨ihmin, ihmax⟩ := ih ps (acc + p.1) htail
        obtain ⟨ihmin2, ihmax2⟩ := ih ps (acc + p.2) htail
        constructor
        · simp only [sumAmounts, hga, hmin]
          rw [ihmin]
          simp only [List.map_cons, List.sum_cons]
          ring_nf
        · simp only [sumAmounts, hga, hmax]
          rw [ihmax2]
          simp only [List.map_cons, List.sum_cons]
          ring_nf

/-- C9 (counterexample).  The claim asserts the totals treat non-numeric
amounts as 0 and never raise, so the example batch with amounts
`[{min:100, max:200}, {min:"N/A", max:300}]` would have min total 100.  The
code sums with a bare `sum(...)`: the string minimum raises `TypeError`
(crashing the summary report), so the min total is an exception, not 100 —
while the max total, whose operands are all numeric, is 500. -/
theorem summary_totals_cex :
    total_min_funding summaryExampleBatch = Except.error "TypeError" ∧
    total_min_funding summaryExampleBatch ≠ Except.ok 100 ∧
    total_max_funding summaryExampleBatch = Except.ok 500 := by
  refine ⟨rfl, ?_, rfl⟩
  intro h
  rw [show total_min_funding summaryExampleBatch = Except.error "TypeError" from rfl] at h
  exact Except.noConfusion h

/-- C9 (amended).  For a batch whose amounts are all present and numeric the
totals are the sums of the minima and of the maxima; a record with a string
amount makes the corresponding total raise `TypeError` when the sum reaches
it (and a record without the keys raises `KeyError`) — non-numeric amounts
are not treated as 0, and the exception propagates out of the report. -/
theorem summary_totals_amended :
    (∀ fs (ns : List (Int × Int)),
      fs.map (fun f => (getAmount f).map (fun a => (a.min, a.max))) =
        ns.map (fun p => Except.ok (PyVal.int p.1, PyVal.int p.2)) →
      total_min_funding fs = Except.ok (ns.map Prod.fst).sum ∧
      total_max_funding fs = Except.ok (ns.map Prod.snd).sum) ∧
    (∀ acc f fs a s, getAmount f = Except.ok a → a.min = PyVal.str s →
      sumAmounts Amount.min acc (f :: fs) = Except.error "TypeError") ∧
    (∀ acc f fs, getAmount f = Except.error "KeyError" →
      sumAmounts Amount.min acc (f :: fs) = Except.error "KeyError") := by
  refine ⟨?_, ?_, ?_⟩
  · intro fs ns h
    have := sumAmounts_all_int fs ns 0 h
    simpa [total_min_funding, total_max_funding] using this
  · intro acc f fs a s hga hmin
    simp only [sumAmounts, hga, hmin]
  · intro acc f fs hga
    simp only [sumAmounts, hga]

/-- C9 (witness).  The all-numeric characterization instantiated on a
two-record batch with amounts (100, 200) and (400, 300). -/
theorem summary_totals_amended_witness :
    total_min_funding
      [sampleWithAmount "a" (PyVal.int 100) (PyVal.int 200),
       sampleWithAmount "b" (PyVal.int 400) (PyVal.int 300)] =
      Except.ok (([((100 : Int), (200 : Int)), (400, 300)].map Prod.fst).sum) ∧
    total_max_funding
      [sampleWithAmount "a" (PyVal.int 100) (PyVal.int 200),
       sampleWithAmount "b" (PyVal.int 400) (PyVal.int 300)] =
      Except.ok (([((100 : Int), (200 : Int)), (400, 300)].map Prod.snd).sum) :=
  summary_totals_amended.1
    [sampleWithAmount "a" (PyVal.int 100) (PyVal.int 200),
     sampleWithAmount "b" (PyVal.int 400) (PyVal.int 300)]
    [(100, 200), (400, 300)] rfl

/-! ## Claim C10 -/

/-- C10 (counterexample).  The claim asserts that on a write failure the
prior on-disk state is always left untouched.  `save_json` opens the file
with mode `'w'`, which truncates it before `json.dump` runs: if the dump
fails midway (modelled as `dumpFail 3` after three characters), the old
contents "OLD" are destroyed and a partial prefix of the new serialization
remains — although `update_database` does duly return `False`. -/
theorem update_database_io_truncated_write_cex :
    update_database_io "t" none [sampleValid "x"] (fun _ => "NEWDATA")
      (some "OLD") (WriteOutcome.dumpFail 3) = (false, some "NEW") ∧
    some "NEW" ≠ some "OLD" := by
  refine ⟨rfl, by decide⟩

/-- C10 (amended).  On every failed write `update_database` reports failure
by returning `False` — no exception escapes, matching the claim — and a
failure of the `open` call itself (unwritable storage) leaves the prior
contents; but a failure during serialization leaves a truncated partial
file, because the code rewrites the store in place rather than writing to a
temporary path and renaming. -/
theorem update_database_io_failure_amended :
    (∀ data disk w, w ≠ WriteOutcome.success → (save_json data disk w).1 = false) ∧
    (∀ now loaded new_fundings encode disk w, w ≠ WriteOutcome.success →
      (update_database_io now loaded new_fundings encode disk w).1 = false) ∧
    (∀ data disk, save_json data disk WriteOutcome.openFail = (false, disk)) ∧
    (∀ data disk k, save_json data disk (WriteOutcome.dumpFail k) =
      (false, some (String.mk (data.data.take k)))) ∧
    (∀ now loaded new_fundings encode disk,
      (update_database_io now loaded new_fundings encode disk
        WriteOutcome.openFail).2 = disk) := by
  refine ⟨?_, ?_, ?_, ?_, ?_⟩
  · intro data disk w hw
    cases w with
    | success => exact absurd rfl hw
    | openFail => rfl
    | dumpFail k => rfl
  · intro now loaded new_fundings encode disk w hw
    unfold update_database_io
    cases update_database now loaded new_fundings with
    | error e => rfl
    | ok db =>
      cases w with
      | success => exact absurd rfl hw
      | openFail => rfl
      | dumpFail k => rfl
  · intro data disk
    rfl
  · intro data disk k
    rfl
  · intro now loaded new_fundings encode disk
    unfold update_database_io
    cases update_database now loaded new_fundings with
    | error e => rfl
    | ok db => rfl

/-- C10 (witness).  Failure reporting instantiated at a concrete dump
failure. -/
theorem update_database_io_failure_amended_witness :
    (update_database_io "t" none [sampleValid "x"] (fun _ => "NEWDATA")
      (some "OLD") (WriteOutcome.dumpFail 0)).1 = false :=
  update_database_io_failure_amended.2.1 "t" none [sampleValid "x"]
    (fun _ => "NEWDATA") (some "OLD") (WriteOutcome.dumpFail 0) (by decide)

end FundingCallUK
